import Mathlib

/-!
Shallow embedding of the extension/operation composition framework of this
repository (src/core/extensions.rs) and of its build-time library-loading op
surface and snapshot drivers (src/cli/build.rs), together with theorems
settling the specification claims about them.

Modelling conventions:
* Rust `Vec<T>` becomes `List T`; `Option<T>` becomes `Option T`.
* Opaque function values (`v8::FunctionCallback`, `Box<dyn Fn ...>` hooks,
  `Box<dyn FastFunction>`) are never called by the code under study except
  through slots that are moved around whole, so they are embedded as opaque
  numeric tags: equality and presence/absence are all the code observes.
* A Rust `panic!` is a distinguished error value of an `Except`/sum type;
  `&mut self` methods become state-passing functions returning the new state.
-/

namespace Deno

/-- Opaque tag standing for `v8::FunctionCallback` (`OpFnRef`). -/
abbrev OpFnRef := Nat

/-- Opaque tag standing for `Box<dyn FastFunction>` contents. -/
abbrev FastFunction := Nat

/-- Opaque tag standing for a `Box<OpStateFn>` closure. -/
abbrev OpStateFn := Nat

/-- Opaque tag standing for a `Box<OpMiddlewareFn>` closure. -/
abbrev OpMiddlewareFn := Nat

/-- Opaque tag standing for a `Box<OpEventLoopFn>` closure. -/
abbrev OpEventLoopFn := Nat

/-- `ExtensionFileSource` (src/core/extensions.rs): specifier plus source text. -/
structure ExtensionFileSource where
  specifier : String
  code : String
deriving DecidableEq, Repr

/-- `OpDecl` (src/core/extensions.rs): one declared native-callable function. -/
structure OpDecl where
  name : String
  v8_fn_ptr : OpFnRef
  enabled : Bool
  is_async : Bool
  is_unstable : Bool
  argc : Nat
  is_v8 : Bool
  fast_fn : Option FastFunction
deriving DecidableEq, Repr

/-- `Extension` (src/core/extensions.rs). -/
structure Extension where
  js_files : Option (List ExtensionFileSource)
  esm_files : Option (List ExtensionFileSource)
  ops : Option (List OpDecl)
  opstate_fn : Option OpStateFn
  middleware_fn : Option OpMiddlewareFn
  event_loop_middleware : Option OpEventLoopFn
  initialized : Bool
  enabled : Bool
  name : String
  deps : Option (List String)
deriving DecidableEq, Repr

/-- `#[derive(Default)]` on `Extension`. -/
instance : Inhabited Extension :=
  ⟨{ js_files := none
     esm_files := none
     ops := none
     opstate_fn := none
     middleware_fn := none
     event_loop_middleware := none
     initialized := false
     enabled := false
     name := ""
     deps := none }⟩

/-- The two `panic!` messages of `Extension::check_dependencies`, as an error type.
`selfDependency name` carries the extension's own name; `missingDependency name dep`
carries the extension's name and the missing dependency. -/
inductive DepError where
  | selfDependency (name : String)
  | missingDependency (name : String) (dep : String)
deriving DecidableEq, Repr

/-- The `'dep_loop` body of `Extension::check_dependencies`: walk the dependency
list, panicking on a self-reference or a dependency not among the names of the
previously loaded extensions. -/
def checkDepList (selfName : String) (prevNames : List String) :
    List String → Except DepError Unit
  | [] => Except.ok ()
  | dep :: rest =>
    if dep = selfName then Except.error (DepError.selfDependency selfName)
    else if dep ∈ prevNames then checkDepList selfName prevNames rest
    else Except.error (DepError.missingDependency selfName dep)

/-- `Extension::check_dependencies(&self, previous_exts)`: no-op when `deps` is
`None`, otherwise the per-dependency scan.  A Rust `panic!` is the `.error` case. -/
def Extension.check_dependencies (self : Extension) (previous_exts : List Extension) :
    Except DepError Unit :=
  match self.deps with
  | some deps => checkDepList self.name (previous_exts.map Extension.name) deps
  | none => Except.ok ()

/-- `Extension::get_js_sources`. -/
def Extension.get_js_sources (self : Extension) : List ExtensionFileSource :=
  match self.js_files with
  | some files => files
  | none => []

/-- `Extension::get_esm_sources`. -/
def Extension.get_esm_sources (self : Extension) : List ExtensionFileSource :=
  match self.esm_files with
  | some files => files
  | none => []

/-- The `panic!("init_ops called twice: not idempotent or correct")` of
`Extension::init_ops`. -/
inductive InitOpsPanic where
  | calledTwice
deriving DecidableEq, Repr

/-- `Extension::init_ops(&mut self) -> Option<Vec<OpDecl>>`: panic when already
initialized; set `initialized = true`; `take` the ops (the `?` returns `None`
with the flag already set); mask each op's `enabled` with the extension's.
Returns the mutated extension together with the Rust return value. -/
def Extension.init_ops (self : Extension) :
    Except InitOpsPanic (Extension × Option (List OpDecl)) :=
  if self.initialized then Except.error InitOpsPanic.calledTwice
  else
    let self' : Extension := { self with initialized := true }
    match self'.ops with
    | none => Except.ok ({ self' with ops := none }, none)
    | some ops =>
      Except.ok ({ self' with ops := none },
        some (ops.map fun op => { op with enabled := self'.enabled && op.enabled }))

/-- `Extension::init_middleware(&mut self)`: `self.middleware_fn.take()`. -/
def Extension.init_middleware (self : Extension) : Extension × Option OpMiddlewareFn :=
  ({ self with middleware_fn := none }, self.middleware_fn)

/-- `Extension::init_event_loop_middleware(&mut self)`: `self.event_loop_middleware.take()`. -/
def Extension.init_event_loop_middleware (self : Extension) :
    Extension × Option OpEventLoopFn :=
  ({ self with event_loop_middleware := none }, self.event_loop_middleware)

/-- `Extension::enabled(self, enabled)` (renamed: `enabled` is the field). -/
def Extension.set_enabled (self : Extension) (enabled : Bool) : Extension :=
  { self with enabled := enabled }

/-- `Extension::disable(self)`. -/
def Extension.disable (self : Extension) : Extension :=
  self.set_enabled false

/-- `ExtensionBuilder` (src/core/extensions.rs).  The Rust fields `js`, `esm`,
`ops`, `state`, `middleware`, `event_loop_middleware` are renamed with suffixes
because in Lean they would collide with the builder methods of the same names. -/
structure ExtensionBuilder where
  js_acc : List ExtensionFileSource
  esm_acc : List ExtensionFileSource
  ops_acc : List OpDecl
  state_fn : Option OpStateFn
  middleware_fn : Option OpMiddlewareFn
  event_loop_middleware_fn : Option OpEventLoopFn
  name : String
  deps : List String
deriving DecidableEq, Repr

/-- `Extension::builder(name)`: `Default` with the given name. -/
def Extension.builder (name : String) : ExtensionBuilder :=
  { js_acc := [], esm_acc := [], ops_acc := [], state_fn := none,
    middleware_fn := none, event_loop_middleware_fn := none, name := name, deps := [] }

/-- `ExtensionBuilder::dependencies`: `self.deps.extend(dependencies)`. -/
def ExtensionBuilder.dependencies (self : ExtensionBuilder)
    (dependencies : List String) : ExtensionBuilder :=
  { self with deps := self.deps ++ dependencies }

/-- The specifier rewrite `format!("internal:{}/{}", self.name, file_source.specifier)`
shared by `ExtensionBuilder::js` and `ExtensionBuilder::esm`. -/
def namespaceSpecifier (name : String) (fs : ExtensionFileSource) : ExtensionFileSource :=
  { specifier := "internal:" ++ name ++ "/" ++ fs.specifier, code := fs.code }

/-- `ExtensionBuilder::js`: rewrite each specifier, then extend the accumulator. -/
def ExtensionBuilder.js (self : ExtensionBuilder)
    (js_files : List ExtensionFileSource) : ExtensionBuilder :=
  { self with js_acc := self.js_acc ++ js_files.map (namespaceSpecifier self.name) }

/-- `ExtensionBuilder::esm`: rewrite each specifier, then extend the accumulator. -/
def ExtensionBuilder.esm (self : ExtensionBuilder)
    (esm_files : List ExtensionFileSource) : ExtensionBuilder :=
  { self with esm_acc := self.esm_acc ++ esm_files.map (namespaceSpecifier self.name) }

/-- `ExtensionBuilder::ops`: `self.ops.extend(ops)`. -/
def ExtensionBuilder.ops (self : ExtensionBuilder) (ops : List OpDecl) : ExtensionBuilder :=
  { self with ops_acc := self.ops_acc ++ ops }

/-- `ExtensionBuilder::state`: `self.state = Some(Box::new(opstate_fn))`. -/
def ExtensionBuilder.state (self : ExtensionBuilder) (opstate_fn : OpStateFn) :
    ExtensionBuilder :=
  { self with state_fn := some opstate_fn }

/-- `ExtensionBuilder::middleware`: `self.middleware = Some(Box::new(middleware_fn))`. -/
def ExtensionBuilder.middleware (self : ExtensionBuilder) (middleware_fn : OpMiddlewareFn) :
    ExtensionBuilder :=
  { self with middleware_fn := some middleware_fn }

/-- `ExtensionBuilder::event_loop_middleware`. -/
def ExtensionBuilder.event_loop_middleware (self : ExtensionBuilder)
    (middleware_fn : OpEventLoopFn) : ExtensionBuilder :=
  { self with event_loop_middleware_fn := some middleware_fn }

/-- `ExtensionBuilder::build(&mut self)`: `mem::take` every list, `Option::take`
every hook, and assemble an `Extension` with `initialized = false`,
`enabled = true`, and the builder's name.  Returns the drained builder together
with the new Extension. -/
def ExtensionBuilder.build (self : ExtensionBuilder) : ExtensionBuilder × Extension :=
  ({ self with
      js_acc := []
      esm_acc := []
      ops_acc := []
      deps := []
      state_fn := none
      middleware_fn := none
      event_loop_middleware_fn := none },
   { js_files := some self.js_acc
     esm_files := some self.esm_acc
     ops := some self.ops_acc
     opstate_fn := self.state_fn
     middleware_fn := self.middleware_fn
     event_loop_middleware := self.event_loop_middleware_fn
     initialized := false
     enabled := true
     name := self.name
     deps := some self.deps })

/-!
### Build-time library loading (src/cli/build.rs, module `ts`)

`op_load` consults two pieces of op-state put there by the `deno_tsc`
extension's state hook (`op_crate_libs : HashMap<&str, PathBuf>` and
`path_dts : PathBuf`) and the real filesystem.  The filesystem is embedded as
an association list from path to file text: `canonicalize` succeeds exactly on
existing paths (and is the identity on them), `read_to_string` succeeds exactly
on existing paths.  `HashMap` lookups become association-list lookups.
-/

/-- `LoadArgs` (src/cli/build.rs). -/
structure LoadArgs where
  specifier : String
deriving DecidableEq, Repr

/-- Errors of the build-time `op_load`: the `custom_error("InvalidSpecifier", ...)`
value carrying the offending specifier, or an `io::Error` (from `canonicalize()?`
or `read_to_string()?`) carrying the path that could not be read. -/
inductive LoadError where
  | invalidSpecifier (specifier : String)
  | ioError (path : String)
deriving DecidableEq, Repr

/-- The JSON object `{ "data", "version", "scriptKind" }` returned by `op_load`. -/
structure LoadResult where
  data : String
  version : String
  scriptKind : Nat
deriving DecidableEq, Repr

/-!
The regex `asset:/{3}lib\.(\S+)\.d\.ts` of `op_load`, embedded directly:
`Regex::captures` finds the leftmost position at which the whole pattern
matches; at that position the group `(\S+)` is greedy, so it captures the
longest run of non-whitespace characters that is still followed by the literal
`.d.ts`.  (`\S` is embedded as `!Char.isWhitespace`, which agrees with the
regex class on all ASCII inputs.)
-/

/-- The literal head `asset:///lib.` of the regex. -/
def assetLit : List Char := "asset:///lib.".toList

/-- The literal tail `.d.ts` of the regex. -/
def dtsLit : List Char := ".d.ts".toList

/-- Greedy match of `(\S+)\.d\.ts` against `cs`: try the capture lengths
`n, n-1, ..., 1` and return the first (longest) whose characters are all
non-whitespace and which is immediately followed by `.d.ts`. -/
def captureTry (cs : List Char) : Nat → Option (List Char)
  | 0 => none
  | n + 1 =>
    if ((cs.take (n + 1)).all fun c => !c.isWhitespace)
        && dtsLit.isPrefixOf (cs.drop (n + 1))
    then some (cs.take (n + 1))
    else captureTry cs n

/-- Match the whole pattern at the start of `cs`, returning the group capture. -/
def matchAssetAt (cs : List Char) : Option (List Char) :=
  if assetLit.isPrefixOf cs then
    captureTry (cs.drop assetLit.length) (cs.drop assetLit.length).length
  else none

/-- `Regex::captures`: scan the start positions left to right and return the
group-1 capture of the leftmost match. -/
def reAssetFind : List Char → Option (List Char)
  | [] => none
  | c :: rest =>
    match matchAssetAt (c :: rest) with
    | some cap => some cap
    | none => reAssetFind rest

/-- Group 1 of `re_asset.captures(&args.specifier)`, as a string. -/
def re_asset_captures (s : String) : Option String :=
  (reAssetFind s.toList).map List.asString

/-- A filesystem snapshot: path → contents. -/
abbrev FileSys := List (String × String)

/-- Association-list lookup (used for both the filesystem and `op_crate_libs`). -/
def lookupAssoc (m : List (String × String)) (k : String) : Option String :=
  (m.find? fun p => p.1 = k).map fun p => p.2

/-- `PathBuf::canonicalize()?`: succeeds (as the identity) exactly on paths
present in the filesystem, otherwise an `io::Error`. -/
def canonicalizePath (fs : FileSys) (p : String) : Except LoadError String :=
  if (lookupAssoc fs p).isSome then Except.ok p else Except.error (LoadError.ioError p)

/-- `std::fs::read_to_string(path)?`. -/
def read_to_string (fs : FileSys) (p : String) : Except LoadError String :=
  match lookupAssoc fs p with
  | some data => Except.ok data
  | none => Except.error (LoadError.ioError p)

/-- The fixed warm-up source returned for the build specifier. -/
def warmUpSource : String := "Deno.writeTextFile(\"hello.txt\", \"hello deno!\");"

/-- `op_load` (src/cli/build.rs): the build specifier returns fixed warm-up
text; a specifier the asset regex matches resolves its captured name against
`op_crate_libs` (then canonicalizes that path) or else against
`path_dts/lib.<name>.d.ts`, and reads the file; anything else is an
`InvalidSpecifier` error.  (The Rust `else` branch for a match whose group 1
is absent is unreachable — group 1 always participates in a match — and has no
counterpart here.) -/
def op_load (op_crate_libs : List (String × String)) (path_dts : String)
    (fs : FileSys) (args : LoadArgs) : Except LoadError LoadResult :=
  let build_specifier := "asset:///bootstrap.ts"
  if args.specifier = build_specifier then
    Except.ok { data := warmUpSource, version := "1", scriptKind := 3 }
  else
    match re_asset_captures args.specifier with
    | some lib =>
      let pathE : Except LoadError String :=
        match lookupAssoc op_crate_libs lib with
        | some op_crate_lib => canonicalizePath fs op_crate_lib
        | none => Except.ok (path_dts ++ "/lib." ++ lib ++ ".d.ts")
      match pathE with
      | Except.error e => Except.error e
      | Except.ok path =>
        match read_to_string fs path with
        | Except.error e => Except.error e
        | Except.ok data => Except.ok { data := data, version := "1", scriptKind := 3 }
    | none =>
      Except.error (LoadError.invalidSpecifier args.specifier)

/-!
### Snapshot creation (src/cli/build.rs)

`create_compiler_snapshot` and `create_cli_snapshot` each hand
`deno_core::snapshot_util::create_snapshot` a `compression_cb` that calls a
compression library (`zstd` resp. `lzzzz::lz4_hc`) and `.expect`s its result,
so a compression failure is a panic inside the callback.  `create_snapshot`
itself lives in the `core` crate but outside `src/`.
-/

/-- A compression function: the raw snapshot bytes, or `none` when the
library reports a failure.  `zstd::bulk::compress` and
`lzzzz::lz4_hc::compress_to_vec` are embedded as arbitrary such functions. -/
abbrev CompressFn := List Nat → Option (List Nat)

/-- The `compression_cb` closures of both snapshot flavors:
`.expect("snapshot compression failed")` turns a library failure into a panic,
embedded as the `.error` case. -/
def compression_cb (compress : CompressFn) (snapshot_slice : List Nat) :
    Except String (List Nat) :=
  match compress snapshot_slice with
  | some out => Except.ok out
  | none => Except.error "snapshot compression failed"

/-- Outcome of a snapshot build: either the artifact file was written with
exactly these bytes, or the build aborted and no file exists. -/
inductive SnapshotOutcome where
  | written (bytes : List Nat)
  | aborted (msg : String)
deriving DecidableEq, Repr

/-- Modelled from the spec: `deno_core::snapshot_util::create_snapshot` is not
under `src/` (only its two callers are).  Per the spec (§4.5), it captures the
engine heap as a byte blob, passes the blob through the caller-supplied
compression callback, and only then persists the compressed bytes to the
snapshot path; a panic raised inside the callback aborts the build before any
file is written, so no partial artifact exists. -/
def create_snapshot (cb : List Nat → Except String (List Nat))
    (snapshot_blob : List Nat) : SnapshotOutcome :=
  match cb snapshot_blob with
  | Except.ok bytes => SnapshotOutcome.written bytes
  | Except.error msg => SnapshotOutcome.aborted msg

/-- `create_compiler_snapshot` (src/cli/build.rs): builds the `deno_tsc`
extension and calls `create_snapshot` with the zstd `compression_cb`. -/
def create_compiler_snapshot (zstd_compress : CompressFn)
    (snapshot_blob : List Nat) : SnapshotOutcome :=
  create_snapshot (compression_cb zstd_compress) snapshot_blob

/-- `create_cli_snapshot` (src/cli/build.rs): builds the `cli` extension set
and calls `create_snapshot` with the lz4 `compression_cb`. -/
def create_cli_snapshot (lz4_compress : CompressFn)
    (snapshot_blob : List Nat) : SnapshotOutcome :=
  create_snapshot (compression_cb lz4_compress) snapshot_blob

/-!
### Sample data used by the witness theorems
-/

/-- A sample op declaration. -/
def opA : OpDecl :=
  { name := "op_a"
    v8_fn_ptr := 0
    enabled := true
    is_async := false
    is_unstable := false
    argc := 2
    is_v8 := false
    fast_fn := none }

/-- A sample disabled op declaration. -/
def opB : OpDecl :=
  { name := "op_b"
    v8_fn_ptr := 1
    enabled := false
    is_async := true
    is_unstable := true
    argc := 0
    is_v8 := true
    fast_fn := some 5 }

/-- A dependency-free sample extension named `a`. -/
def extA : Extension := ((Extension.builder "a").build).2

/-- A sample extension named `b` depending on `a`. -/
def extB : Extension := (((Extension.builder "b").dependencies ["a"]).build).2

/-- A sample extension named `c` depending on itself. -/
def extSelf : Extension := (((Extension.builder "c").dependencies ["c"]).build).2

/-- A sample extension carrying two ops. -/
def extOps : Extension := (((Extension.builder "o").ops [opA, opB]).build).2

/-- A sample extension carrying a middleware hook and an event-loop hook. -/
def extHook : Extension :=
  ((((Extension.builder "h").middleware 7).event_loop_middleware 9).build).2

/-!
### Helper lemmas
-/

/-- `checkDepList` succeeds exactly when every dependency differs from the
extension's own name and occurs among the previous extensions' names. -/
theorem checkDepList_ok_iff (n : String) (prev : List String) (deps : List String) :
    checkDepList n prev deps = Except.ok () ↔
      ∀ d ∈ deps, d ≠ n ∧ d ∈ prev := by
  induction deps with
  | nil => simp [checkDepList]
  | cons d rest ih =>
    by_cases hself : d = n
    · subst hself
      simp [checkDepList]
    · by_cases hmem : d ∈ prev
      · simp only [checkDepList, if_neg hself, if_pos hmem, ih]
        constructor
        · intro h e he
          rcases List.mem_cons.mp he with rfl | he'
          · exact ⟨hself, hmem⟩
          · exact h e he'
        · intro h e he
          exact h e (List.mem_cons_of_mem _ he)
      · simp only [checkDepList, if_neg hself, if_neg hmem]
        constructor
        · intro h; cases h
        · intro h
          exact absurd (h d (List.mem_cons_self d rest)).2 hmem

/-- A `missingDependency` panic of `checkDepList` names the extension itself and
a dependency that is in the list, is not the extension's own name, and does not
occur among the previous names. -/
theorem checkDepList_missing (n : String) (prev : List String) (deps : List String)
    (m d : String)
    (h : checkDepList n prev deps = Except.error (DepError.missingDependency m d)) :
    m = n ∧ d ∈ deps ∧ d ∉ prev ∧ d ≠ n := by
  induction deps with
  | nil => simp [checkDepList] at h
  | cons e rest ih =>
    by_cases hself : e = n
    · subst hself; simp [checkDepList] at h
    · by_cases hmem : e ∈ prev
      · simp only [checkDepList, if_neg hself, if_pos hmem] at h
        obtain ⟨hm, hd, hp, hn⟩ := ih h
        exact ⟨hm, List.mem_cons_of_mem _ hd, hp, hn⟩
      · simp only [checkDepList, if_neg hself, if_neg hmem, Except.error.injEq,
          DepError.missingDependency.injEq] at h
        obtain ⟨hm, hd⟩ := h
        subst hm; subst hd
        exact ⟨rfl, List.mem_cons_self _ _, hmem, hself⟩

/-- A `selfDependency` panic of `checkDepList` names the extension itself, and
the extension's own name is among the dependencies. -/
theorem checkDepList_self (n : String) (prev : List String) (deps : List String)
    (m : String)
    (h : checkDepList n prev deps = Except.error (DepError.selfDependency m)) :
    m = n ∧ n ∈ deps := by
  induction deps with
  | nil => simp [checkDepList] at h
  | cons e rest ih =>
    simp only [checkDepList] at h
    split at h
    next heq =>
      simp only [Except.error.injEq, DepError.selfDependency.injEq] at h
      refine ⟨h.symm, ?_⟩
      rw [← heq]
      exact List.mem_cons_self _ _
    next hne =>
      split at h
      next hmem =>
        obtain ⟨hm, hd⟩ := ih h
        exact ⟨hm, List.mem_cons_of_mem _ hd⟩
      next hnm =>
        simp at h

/-- When every dependency before an occurrence of the extension's own name is
among the previous names, `checkDepList` panics with `selfDependency`. -/
theorem checkDepList_self_of_split (n : String) (prev : List String)
    (pre post : List String) (hpre : ∀ d ∈ pre, d ∈ prev) :
    checkDepList n prev (pre ++ n :: post) = Except.error (DepError.selfDependency n) := by
  induction pre with
  | nil => simp [checkDepList]
  | cons e rest ih =>
    by_cases hself : e = n
    · subst hself; simp [checkDepList]
    · have hmem : e ∈ prev := hpre e (List.mem_cons_self _ _)
      simp only [List.cons_append, checkDepList, if_neg hself, if_pos hmem]
      exact ih fun d hd => hpre d (List.mem_cons_of_mem _ hd)

/-- When every dependency before a dependency `d` is valid, `d` is not the
extension's own name, and `d` is not among the previous names, `checkDepList`
panics with `missingDependency` for `d`. -/
theorem checkDepList_missing_of_split (n : String) (prev : List String)
    (pre post : List String) (d : String)
    (hpre : ∀ p ∈ pre, p ≠ n ∧ p ∈ prev) (hd : d ≠ n) (hdp : d ∉ prev) :
    checkDepList n prev (pre ++ d :: post) =
      Except.error (DepError.missingDependency n d) := by
  induction pre with
  | nil =>
    simp [checkDepList, if_neg hd, if_neg hdp]
  | cons e rest ih =>
    obtain ⟨hen, hep⟩ := hpre e (List.mem_cons_self _ _)
    simp only [List.cons_append, checkDepList, if_neg hen, if_pos hep]
    exact ih fun p hp => hpre p (List.mem_cons_of_mem _ hp)

/-- Distinct extension names produce distinct namespaced specifiers for the
same original specifier. -/
theorem namespaceSpecifier_name_inj (n1 n2 s : String)
    (h : "internal:" ++ n1 ++ "/" ++ s = "internal:" ++ n2 ++ "/" ++ s) : n1 = n2 := by
  have hd := congrArg String.data h
  simp only [String.data_append, List.append_assoc] at hd
  exact congrArg String.mk (List.append_cancel_right (List.append_cancel_left hd))

/-!
### The claims
-/

/-- C10: `ExtensionBuilder::dependencies` appends — repeated calls accumulate
all supplied names in call order onto the existing dependency list, duplicates
included, and change no other builder field. -/
theorem C10_dependencies_appends (b : ExtensionBuilder) (ds1 ds2 : List String) :
    b.dependencies ds1 = { b with deps := b.deps ++ ds1 } ∧
    ((b.dependencies ds1).dependencies ds2).deps = b.deps ++ ds1 ++ ds2 := by
  exact ⟨rfl, rfl⟩

/-- C8: `state`, `middleware` and `event_loop_middleware` each overwrite a
single hook slot — after setting `f` then `g` the builder holds exactly `g` in
that slot, every other field unchanged. -/
theorem C8_hook_setters_overwrite (b : ExtensionBuilder)
    (f g : Nat) :
    (b.state f).state g = { b with state_fn := some g } ∧
    (b.middleware f).middleware g = { b with middleware_fn := some g } ∧
    (b.event_loop_middleware f).event_loop_middleware g =
      { b with event_loop_middleware_fn := some g } := by
  exact ⟨rfl, rfl, rfl⟩

/-- C7: `build()` drains every accumulated list and hook slot into the returned
Extension, which is enabled, uninitialized, and carries the builder's name; the
drained builder is exactly a fresh builder for that name, so a second `build()`
with nothing added in between yields an Extension with empty lists and absent
hooks. -/
theorem C7_build_drains (b : ExtensionBuilder) :
    (b.build).2 =
      { js_files := some b.js_acc
        esm_files := some b.esm_acc
        ops := some b.ops_acc
        opstate_fn := b.state_fn
        middleware_fn := b.middleware_fn
        event_loop_middleware := b.event_loop_middleware_fn
        initialized := false
        enabled := true
        name := b.name
        deps := some b.deps } ∧
    (b.build).1 = Extension.builder b.name ∧
    ((b.build).1.build).2 =
      { js_files := some []
        esm_files := some []
        ops := some []
        opstate_fn := none
        middleware_fn := none
        event_loop_middleware := none
        initialized := false
        enabled := true
        name := b.name
        deps := some [] } := by
  exact ⟨rfl, rfl, rfl⟩

/-- C4: `js` and `esm` store each file under the specifier
`"internal:" ++ name ++ "/" ++ original`, with the code unchanged, appending to
the accumulator; and two different extension names never produce colliding
final specifiers for the same original specifier. -/
theorem C4_specifier_namespacing (b : ExtensionBuilder)
    (files : List ExtensionFileSource) :
    (b.js files).js_acc = b.js_acc ++ files.map (namespaceSpecifier b.name) ∧
    (b.esm files).esm_acc = b.esm_acc ++ files.map (namespaceSpecifier b.name) ∧
    (∀ f, namespaceSpecifier b.name f =
      { specifier := "internal:" ++ b.name ++ "/" ++ f.specifier, code := f.code }) ∧
    (∀ n1 n2 : String, ∀ f : ExtensionFileSource, n1 ≠ n2 →
      (namespaceSpecifier n1 f).specifier ≠ (namespaceSpecifier n2 f).specifier) := by
  refine ⟨rfl, rfl, fun f => rfl, fun n1 n2 f hne hcol => ?_⟩
  exact hne (namespaceSpecifier_name_inj n1 n2 f.specifier hcol)

/-- C4 witness: extension `foo` maps original specifier `bar.js` to
`internal:foo/bar.js`, and extensions `foo` and `baz` do not collide on it. -/
theorem C4_specifier_namespacing_witness :
    ((Extension.builder "foo").js [{ specifier := "bar.js", code := "x" }]).js_acc =
      [{ specifier := "internal:foo/bar.js", code := "x" }] ∧
    (namespaceSpecifier "foo" { specifier := "bar.js", code := "x" }).specifier ≠
      (namespaceSpecifier "baz" { specifier := "bar.js", code := "x" }).specifier := by
  constructor
  · exact (C4_specifier_namespacing (Extension.builder "foo")
      [{ specifier := "bar.js", code := "x" }]).1.trans (by decide)
  · exact (C4_specifier_namespacing (Extension.builder "foo") []).2.2.2 "foo" "baz"
      { specifier := "bar.js", code := "x" } (by decide)

/-- `init_ops` on a not-yet-initialized extension: marks it initialized, takes
the ops out, and masks each op's `enabled` with the extension's. -/
theorem init_ops_not_initialized (E : Extension) (h : E.initialized = false) :
    E.init_ops = Except.ok ({ E with initialized := true, ops := none },
      E.ops.map fun l => l.map fun op => { op with enabled := E.enabled && op.enabled }) := by
  obtain ⟨js, esm, ops, st, mw, ev, init, en, nm, dp⟩ := E
  cases init with
  | true => simp at h
  | false => cases ops <;> rfl

/-- `init_ops` on an already-initialized extension panics. -/
theorem init_ops_initialized (E : Extension) (h : E.initialized = true) :
    E.init_ops = Except.error InitOpsPanic.calledTwice := by
  obtain ⟨js, esm, ops, st, mw, ev, init, en, nm, dp⟩ := E
  cases init with
  | true => rfl
  | false => simp at h

/-- C1: for an extension `E` with dependency list `l` checked against the
extensions loaded before it: the check succeeds exactly when every dependency
names an earlier extension and none names `E` itself; a `missingDependency`
panic reports a dependency of `E` that names no earlier extension and is not
`E`'s own name; a `selfDependency` panic occurs only when `E` names itself;
whenever a dependency equal to `E`'s own name is reached (all dependencies
before it name earlier extensions), the check panics with `selfDependency` —
regardless of whether an earlier extension shares `E`'s name; and whenever a
dependency that is neither `E`'s name nor an earlier extension's name is
reached, the check panics with `missingDependency` for it. -/
theorem C1_check_dependencies (E : Extension) (prev : List Extension)
    (l : List String) (hdeps : E.deps = some l) :
    (E.check_dependencies prev = Except.ok () ↔
      ∀ d ∈ l, d ≠ E.name ∧ d ∈ prev.map Extension.name) ∧
    (∀ m d, E.check_dependencies prev = Except.error (DepError.missingDependency m d) →
      m = E.name ∧ d ∈ l ∧ d ∉ prev.map Extension.name ∧ d ≠ E.name) ∧
    (∀ m, E.check_dependencies prev = Except.error (DepError.selfDependency m) →
      m = E.name ∧ E.name ∈ l) ∧
    (∀ pre post, l = pre ++ E.name :: post →
      (∀ d ∈ pre, d ∈ prev.map Extension.name) →
      E.check_dependencies prev = Except.error (DepError.selfDependency E.name)) ∧
    (∀ pre d post, l = pre ++ d :: post →
      (∀ p ∈ pre, p ≠ E.name ∧ p ∈ prev.map Extension.name) →
      d ≠ E.name → d ∉ prev.map Extension.name →
      E.check_dependencies prev = Except.error (DepError.missingDependency E.name d)) := by
  simp only [Extension.check_dependencies, hdeps]
  refine ⟨checkDepList_ok_iff E.name (prev.map Extension.name) l,
    fun m d h => checkDepList_missing E.name (prev.map Extension.name) l m d h,
    fun m h => checkDepList_self E.name (prev.map Extension.name) l m h,
    fun pre post hl hpre => ?_, fun pre d post hl hpre hd hdp => ?_⟩
  · rw [hl]
    exact checkDepList_self_of_split E.name (prev.map Extension.name) pre post hpre
  · rw [hl]
    exact checkDepList_missing_of_split E.name (prev.map Extension.name) pre post d hpre hd hdp

/-- C1 witness: `b` depending on `a` passes after `a`; `c` depending on itself
panics with `selfDependency` even at the first position; `b` depending on `a`
with nothing loaded before it panics with `missingDependency`. -/
theorem C1_check_dependencies_witness :
    Extension.check_dependencies extB [extA] = Except.ok () ∧
    Extension.check_dependencies extSelf [] =
      Except.error (DepError.selfDependency "c") ∧
    Extension.check_dependencies extB [] =
      Except.error (DepError.missingDependency "b" "a") := by
  refine ⟨(C1_check_dependencies extB [extA] ["a"] rfl).1.mpr ?_,
    (C1_check_dependencies extSelf [] ["c"] rfl).2.2.2.1 [] [] rfl ?_,
    (C1_check_dependencies extB [] ["a"] rfl).2.2.2.2 [] "a" [] rfl ?_ ?_ ?_⟩
  · decide
  · simp
  · simp
  · decide
  · simp

/-- C2: `initialized` transitions exactly once, from false to true, during the
first `init_ops`; `init_ops` on an already-initialized extension is a fatal
panic, every time; and no modelled operation resets `initialized` to false. -/
theorem C2_initialized_one_shot (E : Extension) :
    (E.initialized = false →
      ∃ E' r, E.init_ops = Except.ok (E', r) ∧ E'.initialized = true) ∧
    (E.initialized = true → E.init_ops = Except.error InitOpsPanic.calledTwice) ∧
    (∀ E' r, E.init_ops = Except.ok (E', r) →
      E.initialized = false ∧ E'.initialized = true ∧
      E'.init_ops = Except.error InitOpsPanic.calledTwice) ∧
    ((E.init_middleware).1.initialized = E.initialized) ∧
    ((E.init_event_loop_middleware).1.initialized = E.initialized) ∧
    (∀ b, (E.set_enabled b).initialized = E.initialized) := by
  refine ⟨?_, init_ops_initialized E, ?_, rfl, rfl, fun b => rfl⟩
  · intro h
    exact ⟨_, _, init_ops_not_initialized E h, rfl⟩
  · intro E' r h
    cases hinit : E.initialized with
    | true =>
      rw [init_ops_initialized E hinit] at h
      cases h
    | false =>
      rw [init_ops_not_initialized E hinit] at h
      obtain ⟨hE', _⟩ := by simpa using h
      refine ⟨rfl, ?_, ?_⟩
      · rw [← hE']
      · rw [← hE']
        exact init_ops_initialized _ rfl

/-- C2 witness: a freshly built extension initializes once; one marked
initialized panics. -/
theorem C2_initialized_one_shot_witness :
    (∃ E' r, extA.init_ops = Except.ok (E', r) ∧ E'.initialized = true) ∧
    ({ extA with initialized := true } : Extension).init_ops =
      Except.error InitOpsPanic.calledTwice :=
  ⟨(C2_initialized_one_shot extA).1 rfl,
   (C2_initialized_one_shot { extA with initialized := true }).2.1 rfl⟩

/-- C3: on a not-yet-initialized extension owning ops `l`, `init_ops` returns
exactly `l` with each op's `enabled` replaced by `E.enabled AND op.enabled`
and every other field of every op unchanged; the result is a function of `E`
alone (`init_ops` takes no positional input, so it cannot depend on `E`'s
position in the composition order). -/
theorem C3_init_ops_enabled_mask (E : Extension) (l : List OpDecl)
    (h0 : E.initialized = false) (h1 : E.ops = some l) :
    E.init_ops = Except.ok ({ E with initialized := true, ops := none },
      some (l.map fun op => { op with enabled := E.enabled && op.enabled })) := by
  rw [init_ops_not_initialized E h0, h1]
  rfl

/-- C3 witness: the sample two-op extension (enabled, with one enabled and one
disabled op) masks exactly as claimed. -/
theorem C3_init_ops_enabled_mask_witness :
    extOps.init_ops = Except.ok ({ extOps with initialized := true, ops := none },
      some ([opA, opB].map fun op => { op with enabled := extOps.enabled && op.enabled })) :=
  C3_init_ops_enabled_mask extOps [opA, opB] rfl rfl

/-- C6 counterexample: taking a single-use hook a second time is not a fatal
abort.  On the sample extension holding both hooks, the second
`init_middleware` (resp. `init_event_loop_middleware`) returns normally with
`none` and the extension unchanged — the source function's return type
(`Option::take`) has no panic path at all, so the second take is silently a
no-op rather than an abort. -/
theorem C6_hook_double_take_counterexample :
    (extHook.init_middleware).1.init_middleware =
      ((extHook.init_middleware).1, none) ∧
    (extHook.init_event_loop_middleware).1.init_event_loop_middleware =
      ((extHook.init_event_loop_middleware).1, none) :=
  ⟨rfl, rfl⟩

/-- C6 amended: each single-use hook is consumed on first take — the slot is
emptied and its previous contents returned — and a second take silently
returns `none`, leaving the extension unchanged (it does not abort). -/
theorem C6_hook_single_use_amended (E : Extension) :
    E.init_middleware = ({ E with middleware_fn := none }, E.middleware_fn) ∧
    (E.init_middleware).1.middleware_fn = none ∧
    (E.init_middleware).1.init_middleware = ((E.init_middleware).1, none) ∧
    E.init_event_loop_middleware =
      ({ E with event_loop_middleware := none }, E.event_loop_middleware) ∧
    (E.init_event_loop_middleware).1.event_loop_middleware = none ∧
    (E.init_event_loop_middleware).1.init_event_loop_middleware =
      ((E.init_event_loop_middleware).1, none) :=
  ⟨rfl, rfl, rfl, rfl, rfl, rfl⟩

/-- C5 counterexample: the claim's own example fails on the code.  For
`"asset:///lib.unknown.d.ts"` with no mapping (and no such file on disk),
`op_load` does not return an `InvalidSpecifier` error: the specifier matches
the asset regex, so the code falls through to the conventional path
`path_dts/lib.unknown.d.ts` and fails with the `io::Error` of the file read
(`read_to_string()?`), not with `custom_error("InvalidSpecifier", ...)`. -/
theorem C5_op_load_counterexample :
    op_load [] "dts" [] { specifier := "asset:///lib.unknown.d.ts" } =
      Except.error (LoadError.ioError "dts/lib.unknown.d.ts") ∧
    op_load [] "dts" [] { specifier := "asset:///lib.unknown.d.ts" } ≠
      Except.error (LoadError.invalidSpecifier "asset:///lib.unknown.d.ts") := by
  have h1 : op_load [] "dts" [] { specifier := "asset:///lib.unknown.d.ts" } =
      Except.error (LoadError.ioError "dts/lib.unknown.d.ts") := by rfl
  refine ⟨h1, ?_⟩
  rw [h1]
  intro h
  simp at h

/-- C5 amended: the build specifier returns the fixed warm-up text with version
`"1"` and script-kind 3; a specifier the asset regex matches resolves its
captured name against the library-path table (reading the canonicalized path)
or else against the conventional location `path_dts/lib.<name>.d.ts`, returning
the file's text with version `"1"` and script-kind 3 when it exists and the
file-read `io::Error` — not `InvalidSpecifier` — when it does not;
`InvalidSpecifier`, carrying the offending specifier string, is returned
exactly for the non-bootstrap specifiers the regex does not match. -/
theorem C5_op_load_amended (libs : List (String × String)) (dts : String)
    (fs : FileSys) (s : String) :
    (s = "asset:///bootstrap.ts" →
      op_load libs dts fs { specifier := s } =
        Except.ok { data := warmUpSource, version := "1", scriptKind := 3 }) ∧
    (s ≠ "asset:///bootstrap.ts" → re_asset_captures s = none →
      op_load libs dts fs { specifier := s } =
        Except.error (LoadError.invalidSpecifier s)) ∧
    (∀ lib p text, s ≠ "asset:///bootstrap.ts" → re_asset_captures s = some lib →
      lookupAssoc libs lib = some p → lookupAssoc fs p = some text →
      op_load libs dts fs { specifier := s } =
        Except.ok { data := text, version := "1", scriptKind := 3 }) ∧
    (∀ lib p, s ≠ "asset:///bootstrap.ts" → re_asset_captures s = some lib →
      lookupAssoc libs lib = some p → lookupAssoc fs p = none →
      op_load libs dts fs { specifier := s } =
        Except.error (LoadError.ioError p)) ∧
    (∀ lib text, s ≠ "asset:///bootstrap.ts" → re_asset_captures s = some lib →
      lookupAssoc libs lib = none →
      lookupAssoc fs (dts ++ "/lib." ++ lib ++ ".d.ts") = some text →
      op_load libs dts fs { specifier := s } =
        Except.ok { data := text, version := "1", scriptKind := 3 }) ∧
    (∀ lib, s ≠ "asset:///bootstrap.ts" → re_asset_captures s = some lib →
      lookupAssoc libs lib = none →
      lookupAssoc fs (dts ++ "/lib." ++ lib ++ ".d.ts") = none →
      op_load libs dts fs { specifier := s } =
        Except.error (LoadError.ioError (dts ++ "/lib." ++ lib ++ ".d.ts"))) := by
  refine ⟨?_, ?_, ?_, ?_, ?_, ?_⟩
  · intro hs
    simp [op_load, hs]
  · intro hs hre
    simp [op_load, hs, hre]
  · intro lib p text hs hre hlib hfs
    simp [op_load, hs, hre, hlib, canonicalizePath, hfs, read_to_string]
  · intro lib p hs hre hlib hfs
    simp [op_load, hs, hre, hlib, canonicalizePath, hfs, read_to_string]
  · intro lib text hs hre hlib hfs
    simp [op_load, hs, hre, hlib, canonicalizePath, hfs, read_to_string]
  · intro lib hs hre hlib hfs
    simp [op_load, hs, hre, hlib, canonicalizePath, hfs, read_to_string]

/-- C5 amended witness: a mapped library loads its file's text; a non-matching
specifier is an `InvalidSpecifier` error. -/
theorem C5_op_load_amended_witness :
    op_load [("deno.cache", "/op/lib.deno.cache.d.ts")] "dts"
        [("/op/lib.deno.cache.d.ts", "CACHE")]
        { specifier := "asset:///lib.deno.cache.d.ts" } =
      Except.ok { data := "CACHE", version := "1", scriptKind := 3 } ∧
    op_load [] "dts" [] { specifier := "foo" } =
      Except.error (LoadError.invalidSpecifier "foo") :=
  ⟨(C5_op_load_amended [("deno.cache", "/op/lib.deno.cache.d.ts")] "dts"
      [("/op/lib.deno.cache.d.ts", "CACHE")] "asset:///lib.deno.cache.d.ts").2.2.1
      "deno.cache" "/op/lib.deno.cache.d.ts" "CACHE" (by decide) (by decide)
      (by decide) (by decide),
   (C5_op_load_amended [] "dts" [] "foo").2.1 (by decide) (by decide)⟩

/-- C9: for both snapshot flavors, the artifact is written exactly when the
compression function succeeds, and then holds exactly its output; when
compression fails the build aborts with the `expect` message and no file is
produced — there is no partially written outcome. -/
theorem C9_compression_failure_fatal (zstd_compress lz4_compress : CompressFn)
    (blob : List Nat) :
    (∀ out, zstd_compress blob = some out →
      create_compiler_snapshot zstd_compress blob = SnapshotOutcome.written out) ∧
    (zstd_compress blob = none →
      create_compiler_snapshot zstd_compress blob =
        SnapshotOutcome.aborted "snapshot compression failed") ∧
    (∀ bytes, create_compiler_snapshot zstd_compress blob = SnapshotOutcome.written bytes →
      zstd_compress blob = some bytes) ∧
    (∀ out, lz4_compress blob = some out →
      create_cli_snapshot lz4_compress blob = SnapshotOutcome.written out) ∧
    (lz4_compress blob = none →
      create_cli_snapshot lz4_compress blob =
        SnapshotOutcome.aborted "snapshot compression failed") ∧
    (∀ bytes, create_cli_snapshot lz4_compress blob = SnapshotOutcome.written bytes →
      lz4_compress blob = some bytes) := by
  refine ⟨?_, ?_, ?_, ?_, ?_, ?_⟩
  · intro out h
    simp [create_compiler_snapshot, create_snapshot, compression_cb, h]
  · intro h
    simp [create_compiler_snapshot, create_snapshot, compression_cb, h]
  · intro bytes h
    cases hc : zstd_compress blob with
    | none =>
      simp [create_compiler_snapshot, create_snapshot, compression_cb, hc] at h
    | some out =>
      simp [create_compiler_snapshot, create_snapshot, compression_cb, hc] at h
      rw [h]
  · intro out h
    simp [create_cli_snapshot, create_snapshot, compression_cb, h]
  · intro h
    simp [create_cli_snapshot, create_snapshot, compression_cb, h]
  · intro bytes h
    cases hc : lz4_compress blob with
    | none =>
      simp [create_cli_snapshot, create_snapshot, compression_cb, hc] at h
    | some out =>
      simp [create_cli_snapshot, create_snapshot, compression_cb, hc] at h
      rw [h]

/-- C9 witness: a succeeding compression writes exactly its output; a failing
one aborts with the fixed message. -/
theorem C9_compression_failure_fatal_witness :
    create_compiler_snapshot (fun l => some l) [1, 2] = SnapshotOutcome.written [1, 2] ∧
    create_cli_snapshot (fun _ => none) [1, 2] =
      SnapshotOutcome.aborted "snapshot compression failed" :=
  ⟨(C9_compression_failure_fatal (fun l => some l) (fun _ => none) [1, 2]).1 [1, 2] rfl,
   (C9_compression_failure_fatal (fun l => some l) (fun _ => none) [1, 2]).2.2.2.2.1 rfl⟩

end Deno
